import Mathlib

-- Verification of a lightweight OCI container engine (Rust sources: lib.rs,
-- container.rs, image.rs, pipe.rs, rest.rs).  The Rust code is shallowly
-- embedded: subprocess execution, the filesystem, and the conmon handshake
-- are oracles supplied through an `Env` record; everything else is a direct
-- translation of the source functions.

namespace Oci

-- JSON values as they appear in this program: every object exchanged is
-- flat (no nested objects are ever produced or consumed), so an object is
-- an association list from field names to primitive values.
inductive JVal where
  | jnum : Int → JVal
  | jstr : String → JVal
deriving DecidableEq

abbrev JObj : Type := List (String × JVal)

-- Field lookup in a JSON object (first occurrence, as serde sees maps with
-- unique keys).
def jlookup (o : JObj) (k : String) : Option JVal :=
  match o with
  | [] => none
  | (k2, v) :: rest => if k2 = k then some v else jlookup rest k

def jint (o : JObj) (k : String) : Option Int :=
  match jlookup o k with
  | some (JVal.jnum n) => some n
  | _ => none

def jstrField (o : JObj) (k : String) : Option String :=
  match jlookup o k with
  | some (JVal.jstr s) => some s
  | _ => none

-- `Status` from container.rs: internally tagged with tag field "status",
-- `rename_all = "lowercase"`; pid is u64, exit_code is i64.
inductive Status where
  | creating : Status
  | created : Nat → Status
  | running : Nat → Status
  | paused : Nat → Status
  | stopped : Int → Status
deriving DecidableEq

def Status.tag : Status → String
  | Status.creating => "creating"
  | Status.created _ => "created"
  | Status.running _ => "running"
  | Status.paused _ => "paused"
  | Status.stopped _ => "stopped"

-- Serialization of `Status`: serde emits the lowercase tag under "status"
-- and the variant payload fields alongside it, in one flat object.
def Status.toJson : Status → JObj
  | Status.creating => [("status", JVal.jstr "creating")]
  | Status.created pid => [("status", JVal.jstr "created"), ("pid", JVal.jnum (Int.ofNat pid))]
  | Status.running pid => [("status", JVal.jstr "running"), ("pid", JVal.jnum (Int.ofNat pid))]
  | Status.paused pid => [("status", JVal.jstr "paused"), ("pid", JVal.jnum (Int.ofNat pid))]
  | Status.stopped exit_code => [("status", JVal.jstr "stopped"), ("exit_code", JVal.jnum exit_code)]

-- Deserialization of u64 payload fields: a negative JSON number is rejected.
def jnat (o : JObj) (k : String) : Option Nat :=
  match jint o k with
  | some n => if 0 ≤ n then some n.toNat else none
  | none => none

-- Deserialization of `Status`: read the "status" tag, then the payload
-- field for that variant; extra fields are ignored (serde default).
def Status.fromJson (o : JObj) : Option Status :=
  match jstrField o "status" with
  | some t =>
    if t = "creating" then some Status.creating
    else if t = "created" then (jnat o "pid").map Status.created
    else if t = "running" then (jnat o "pid").map Status.running
    else if t = "paused" then (jnat o "pid").map Status.paused
    else if t = "stopped" then (jint o "exit_code").map Status.stopped
    else none
  | none => none

-- `State` from container.rs: id, flattened status, bundle path.
structure StateM where
  id : String
  status : Status
  bundle : String
deriving DecidableEq

def StateM.toJson (st : StateM) : JObj :=
  [("id", JVal.jstr st.id)] ++ Status.toJson st.status ++ [("bundle", JVal.jstr st.bundle)]

def StateM.fromJson (o : JObj) : Option StateM :=
  match jstrField o "id", Status.fromJson o, jstrField o "bundle" with
  | some i, some st, some b => some (StateM.mk i st b)
  | _, _, _ => none

-- `SyncInfo` from pipe.rs: an untagged enum with variants declared in the
-- order Err then Ok; serde tries them in declaration order.
inductive SyncInfo where
  | err : Int → String → SyncInfo
  | ok : Int → SyncInfo
deriving DecidableEq

-- Err variant: requires integer "pid" and string "message" fields.
def SyncInfo.deErrVariant (o : JObj) : Option SyncInfo :=
  match jint o "pid", jstrField o "message" with
  | some pid, some message => some (SyncInfo.err pid message)
  | _, _ => none

-- Ok variant: requires an integer "pid" field only.
def SyncInfo.deOkVariant (o : JObj) : Option SyncInfo :=
  match jint o "pid" with
  | some pid => some (SyncInfo.ok pid)
  | none => none

def SyncInfo.fromJson (o : JObj) : Option SyncInfo :=
  match SyncInfo.deErrVariant o with
  | some si => some si
  | none => SyncInfo.deOkVariant o

-- `SyncPipe::get_pid` from pipe.rs: reads one line from the sync pipe and
-- parses it; the line is modelled post-JSON-parse as `Option JObj`
-- (`none` = the line was not a JSON object).
def get_pid (line : Option JObj) : Except String Int :=
  match line with
  | none => Except.error "failed to parse SyncInfo object"
  | some o =>
    match SyncInfo.fromJson o with
    | none => Except.error "failed to parse SyncInfo object"
    | some (SyncInfo.ok pid) => Except.ok pid
    | some (SyncInfo.err pid message) =>
      Except.error ("failed to read container PID from conmon, returned status "
        ++ toString pid ++ ": [" ++ message ++ "]")

-- Inheritable pipe construction from pipe.rs.  The model tracks the fd-flag
-- word of each end of the pipe; pipe(2) yields both descriptors with no fd
-- flags set, then `create_pipe` reads the flags of the inheritable end and
-- sets FD_CLOEXEC on the other.  Result: (read end flags, write end flags).
def FD_CLOEXEC : Nat := 1

inductive Inheritable where
  | reader : Inheritable
  | writer : Inheritable

def create_pipe (kind : Inheritable) : Nat × Nat :=
  let fds : Nat → Nat := fun _ => 0
  let idx : Nat × Nat :=
    match kind with
    | Inheritable.reader => (0, 1)
    | Inheritable.writer => (1, 0)
  let flags := fds idx.1
  let fds2 : Nat → Nat := fun i => if i = idx.2 then flags ||| FD_CLOEXEC else fds i
  (fds2 0, fds2 1)

-- `StartPipe::new`: reader-inheritable pipe; the parent keeps the write end,
-- the child fd is the read end.
structure StartPipeM where
  writer_flags : Nat
  child_fd_flags : Nat

def StartPipe.new : StartPipeM :=
  match create_pipe Inheritable.reader with
  | (read_flags, write_flags) => StartPipeM.mk write_flags read_flags

-- `SyncPipe::new`: writer-inheritable pipe; the parent keeps the read end,
-- the child fd is the write end.
structure SyncPipeM where
  reader_flags : Nat
  child_fd_flags : Nat

def SyncPipe.new : SyncPipeM :=
  match create_pipe Inheritable.writer with
  | (read_flags, write_flags) => SyncPipeM.mk read_flags write_flags

-- Binary names from container.rs and image.rs.
def CONMON_BIN : String := "conmon"

def RUNTIME_BIN : String := "/usr/bin/crun"

def SKOPEO_BIN : String := "skopeo"

def UMOCI_BIN : String := "umoci"

-- `OciBundle` from image.rs: a scoped temporary base directory with fixed
-- subpaths, exactly as computed in `OciBundle::unpack_from`.
structure OciBundleM where
  base_dir : String
deriving DecidableEq

def OciBundleM.bundle_dir (b : OciBundleM) : String := b.base_dir ++ "/bundle"

def OciBundleM.exits_dir (b : OciBundleM) : String := b.base_dir ++ "/exits"

def OciBundleM.log_file (b : OciBundleM) : String := b.base_dir ++ "/container.log"

def OciBundleM.pid_file (b : OciBundleM) : String := b.base_dir ++ "/container.pid"

-- `Container` from container.rs (the console socket and sync pipe carry no
-- data relevant to the verified operations and are omitted).
structure ContainerM where
  id : String
  pid : Int
  runtime : OciBundleM
deriving DecidableEq

-- Observable side effects of the engine: subprocess spawns and registry
-- mutations, recorded in order.
inductive Eff where
  | spawnCopy : List String → Eff
  | spawnUnpack : List String → Eff
  | spawnMonitor : String → Eff
  | spawnRuntime : List String → Eff
  | insertKey : String → Eff
  | removeKey : String → Eff
deriving DecidableEq

-- The external world: subprocess outcomes, the filesystem, temporary
-- directory names, the conmon handshake outcome, and allocation success.
-- `exec argv` models `exec_command`: an error is the non-zero-exit error
-- (carrying stderr); success carries stdout, already JSON-parsed when it
-- parses (`none` = stdout is not a JSON object).
structure Env where
  exec : List String → Except String (Option JObj)
  mkdir : String → Except String Unit
  fetchTmp : String
  unpackTmp : String
  conmon : String → OciBundleM → Except String Int
  alloc : Except String Unit
  fs : String → Option String

def cmdStr : List String → String
  | [] => ""
  | [a] => a
  | a :: rest => a ++ " " ++ cmdStr rest

-- `OciImage::fetch_from_docker_hub` (image.rs): split the spec on the first
-- colon, default the tag to "latest", then run
-- `skopeo copy docker://docker.io/<name>:<tag> oci:<tmpdir>:<tag>`.
-- Rust `splitn(2, ':')`: at most two segments, the second keeps any later
-- colons; the empty string yields one (empty) segment.
def splitFirstColon : List Char → Option (List Char × List Char)
  | [] => none
  | c :: rest =>
    if c = ':' then some ([], rest)
    else
      match splitFirstColon rest with
      | none => none
      | some (l, r) => some (c :: l, r)

def splitn2 (s : String) : List String :=
  match splitFirstColon s.data with
  | none => [s]
  | some (l, r) => [String.mk l, String.mk r]

def fetchWithTag (env : Env) (name : String) (tag : String) :
    List Eff × Except String String :=
  let src := env.fetchTmp
  let image_src := "docker://docker.io/" ++ name ++ ":" ++ tag
  let image_dest := "oci:" ++ src ++ ":" ++ tag
  let argv := [SKOPEO_BIN, "copy", image_src, image_dest]
  match env.exec argv with
  | Except.error stderr =>
    ([Eff.spawnCopy argv],
     Except.error ("failed to fetch container, `" ++ cmdStr argv
       ++ "` returned non-zero exit status: [" ++ stderr ++ "]"))
  | Except.ok _ => ([Eff.spawnCopy argv], Except.ok src)

def OciImage.fetch_from_docker_hub (env : Env) (container_spec : String) :
    List Eff × Except String String :=
  match splitn2 container_spec with
  | [name] => fetchWithTag env name "latest"
  | [name, tag] => fetchWithTag env name tag
  | _ => ([], Except.error "container specification cannot be empty")

-- `OciBundle::unpack_from` (image.rs): fresh base dir, run
-- `umoci unpack --rootless --image=<src>:latest <base>/bundle`, then create
-- the exits directory.
def OciBundle.unpack_from (env : Env) (oci_src : String) :
    List Eff × Except String OciBundleM :=
  let base := env.unpackTmp
  let image_flag := "--image=" ++ oci_src ++ ":latest"
  let argv := [UMOCI_BIN, "unpack", "--rootless", image_flag, base ++ "/bundle"]
  match env.exec argv with
  | Except.error stderr =>
    ([Eff.spawnUnpack argv],
     Except.error ("failed to unpack OCI container, `" ++ cmdStr argv
       ++ "` returned non-zero exit status: [" ++ stderr ++ "]"))
  | Except.ok _ =>
    match env.mkdir (base ++ "/exits") with
    | Except.error e => ([Eff.spawnUnpack argv], Except.error e)
    | Except.ok _ => ([Eff.spawnUnpack argv], Except.ok (OciBundleM.mk base))

-- `Container::create` (container.rs): the pipe/handshake protocol with
-- conmon is abstracted as the `conmon` oracle returning the container PID;
-- on success the handle is the struct literal from the end of `create`.
def Container.create (env : Env) (id : String) (rt : OciBundleM) :
    List Eff × Except String ContainerM :=
  ([Eff.spawnMonitor id],
   match env.conmon id rt with
   | Except.error e => Except.error e
   | Except.ok pid => Except.ok (ContainerM.mk id pid rt))

-- Lifecycle verbs (container.rs): each runs the runtime binary through
-- `exec_command` and discards stdout.
def Container.start (env : Env) (c : ContainerM) : List Eff × Except String Unit :=
  let argv := [RUNTIME_BIN, "start", c.id]
  ([Eff.spawnRuntime argv],
   match env.exec argv with
   | Except.error e => Except.error ("`" ++ cmdStr argv ++ "` returned: [" ++ e ++ "]")
   | Except.ok _ => Except.ok ())

def Container.pause (env : Env) (c : ContainerM) : List Eff × Except String Unit :=
  let argv := [RUNTIME_BIN, "pause", c.id]
  ([Eff.spawnRuntime argv],
   match env.exec argv with
   | Except.error e => Except.error ("`" ++ cmdStr argv ++ "` returned: [" ++ e ++ "]")
   | Except.ok _ => Except.ok ())

def Container.resume (env : Env) (c : ContainerM) : List Eff × Except String Unit :=
  let argv := [RUNTIME_BIN, "resume", c.id]
  ([Eff.spawnRuntime argv],
   match env.exec argv with
   | Except.error e => Except.error ("`" ++ cmdStr argv ++ "` returned: [" ++ e ++ "]")
   | Except.ok _ => Except.ok ())

def Container.delete (env : Env) (c : ContainerM) : List Eff × Except String Unit :=
  let argv := [RUNTIME_BIN, "delete", "--force", c.id]
  ([Eff.spawnRuntime argv],
   match env.exec argv with
   | Except.error e => Except.error ("`" ++ cmdStr argv ++ "` returned: [" ++ e ++ "]")
   | Except.ok _ => Except.ok ())

-- `str::parse::<i64>` on the exit-file contents: decimal digits with an
-- optional leading sign, within the i64 range.
def digitsToNatAux : List Char → Nat → Option Nat
  | [], acc => some acc
  | c :: rest, acc =>
    if c.isDigit then digitsToNatAux rest (acc * 10 + (c.toNat - 48)) else none

def digitsToNat : List Char → Option Nat
  | [] => none
  | l => digitsToNatAux l 0

def parseIntChars : List Char → Option Int
  | '-' :: rest => (digitsToNat rest).map (fun n => -(Int.ofNat n))
  | '+' :: rest => (digitsToNat rest).map Int.ofNat
  | l => (digitsToNat l).map Int.ofNat

def parseI64 (s : String) : Option Int :=
  match parseIntChars s.data with
  | some n => if -(2 ^ 63) ≤ n ∧ n < 2 ^ 63 then some n else none
  | none => none

def exitFileMissingMsg (c : ContainerM) : String :=
  "exit file does not exist for " ++ c.id ++ " at " ++ c.runtime.exits_dir ++ "/exit"

-- `Container::read_state_from_exit_file` (container.rs): if
-- `<base>/exits/exit` is absent, error; otherwise parse its contents as a
-- decimal exit code and synthesize a Stopped state with the bundle dir.
def Container.read_state_from_exit_file (env : Env) (c : ContainerM) :
    Except String StateM :=
  let exit_file := c.runtime.exits_dir ++ "/exit"
  match env.fs exit_file with
  | none => Except.error (exitFileMissingMsg c)
  | some contents =>
    match parseI64 contents with
    | none => Except.error "invalid digit found in string"
    | some exit_code =>
      Except.ok (StateM.mk c.id (Status.stopped exit_code) c.runtime.bundle_dir)

-- `Container::state` (container.rs): run `<runtime> state <id>`; on command
-- success parse stdout as a `State` (a parse failure propagates); on
-- command failure fall back to the exit file.
def Container.state (env : Env) (c : ContainerM) : List Eff × Except String StateM :=
  let argv := [RUNTIME_BIN, "state", c.id]
  ([Eff.spawnRuntime argv],
   match env.exec argv with
   | Except.ok stdout =>
     match stdout.bind StateM.fromJson with
     | some st => Except.ok st
     | none => Except.error "failed to parse State JSON"
   | Except.error _ => Container.read_state_from_exit_file env c)

-- The engine registry (lib.rs): `DashMap<String, Container>` modelled as a
-- partial map from names to handles.
def Registry : Type := String → Option ContainerM

def Registry.insert (reg : Registry) (k : String) (v : ContainerM) : Registry :=
  fun x => if x = k then some v else reg x

def Registry.remove (reg : Registry) (k : String) : Registry :=
  fun x => if x = k then none else reg x

def notFoundMsg (name : String) : String :=
  "container `" ++ name ++ "` does not exist"

-- `Engine::create` (lib.rs): idempotence check, then
-- fetch → unpack → create handle → start → (tryformat id) → insert.
def Engine.create (env : Env) (reg : Registry) (name : String) :
    Registry × List Eff × Except String Unit :=
  if (reg name).isSome then (reg, [], Except.ok ())
  else
    match OciImage.fetch_from_docker_hub env name with
    | (t1, Except.error e) => (reg, t1, Except.error e)
    | (t1, Except.ok img) =>
      match OciBundle.unpack_from env img with
      | (t2, Except.error e) => (reg, t1 ++ t2, Except.error e)
      | (t2, Except.ok rt) =>
        match Container.create env name rt with
        | (t3, Except.error e) => (reg, t1 ++ t2 ++ t3, Except.error e)
        | (t3, Except.ok c) =>
          match Container.start env c with
          | (t4, Except.error e) => (reg, t1 ++ t2 ++ t3 ++ t4, Except.error e)
          | (t4, Except.ok _) =>
            match env.alloc with
            | Except.error e =>
              (reg, t1 ++ t2 ++ t3 ++ t4, Except.error ("OOM error: " ++ e))
            | Except.ok _ =>
              (Registry.insert reg name c,
               t1 ++ t2 ++ t3 ++ t4 ++ [Eff.insertKey name], Except.ok ())

-- `Engine::state`, `Engine::pause`, `Engine::resume` (lib.rs): look up the
-- handle and delegate; a miss is the not-found error.
def Engine.state (env : Env) (reg : Registry) (name : String) :
    Registry × List Eff × Except String StateM :=
  match reg name with
  | some c => (reg, (Container.state env c).1, (Container.state env c).2)
  | none => (reg, [], Except.error (notFoundMsg name))

def Engine.pause (env : Env) (reg : Registry) (name : String) :
    Registry × List Eff × Except String Unit :=
  match reg name with
  | some c => (reg, (Container.pause env c).1, (Container.pause env c).2)
  | none => (reg, [], Except.error (notFoundMsg name))

def Engine.resume (env : Env) (reg : Registry) (name : String) :
    Registry × List Eff × Except String Unit :=
  match reg name with
  | some c => (reg, (Container.resume env c).1, (Container.resume env c).2)
  | none => (reg, [], Except.error (notFoundMsg name))

-- `Engine::delete` (lib.rs): `DashMap::remove` takes the entry out of the
-- map (ownership moves to the caller) and only then is the handle's
-- consuming delete invoked.
def Engine.delete (env : Env) (reg : Registry) (name : String) :
    Registry × List Eff × Except String Unit :=
  match reg name with
  | some c =>
    (Registry.remove reg name,
     Eff.removeKey name :: (Container.delete env c).1, (Container.delete env c).2)
  | none => (reg, [], Except.error (notFoundMsg name))

-- REST gateway (rest.rs): rejection kinds and `handle_rejection`.
inductive RejectionM where
  | notFound : RejectionM
  | engineError : String → RejectionM
  | bodyDeserializeError : String → RejectionM
  | other : RejectionM

def handle_rejection : RejectionM → Nat × String
  | RejectionM.notFound => (404, "Container not found")
  | RejectionM.engineError e => (500, e)
  | RejectionM.bodyDeserializeError e => (400, e)
  | RejectionM.other => (500, "UNHANDLED_REJECTION")

def errorMsgJson (code : Nat) (message : String) : JObj :=
  [("code", JVal.jnum (Int.ofNat code)), ("message", JVal.jstr message)]

-- The GET /containers/<name> handler composed with the rejection mapping:
-- a successful state query is a 200 with the State JSON; an engine error
-- becomes an `EngineError` rejection, handled by `handle_rejection`.
def rest_get_container (env : Env) (reg : Registry) (name : String) : Nat × JObj :=
  match (Engine.state env reg name).2.2 with
  | Except.ok st => (200, StateM.toJson st)
  | Except.error e =>
    match handle_rejection (RejectionM.engineError e) with
    | (code, message) => (code, errorMsgJson code message)

-- Concrete environments and inputs used by witnesses and counterexamples.
def env0 : Env :=
  { exec := fun _ => Except.ok none
    mkdir := fun _ => Except.ok ()
    fetchTmp := "/tmp/src"
    unpackTmp := "/tmp/base"
    conmon := fun _ _ => Except.ok 42
    alloc := Except.ok ()
    fs := fun _ => none }

def envErrState : Env :=
  { env0 with exec := fun _ => Except.error "boom" }

def envExitFile : Env :=
  { envErrState with
    fs := fun p => if p = "/tmp/base/exits/exit" then some "7" else none }

def bundle0 : OciBundleM := OciBundleM.mk "/tmp/base"

def c0 : ContainerM := ContainerM.mk "foo" 42 bundle0

def emptyReg : Registry := fun _ => none

def reg1 : Registry := Registry.insert emptyReg "foo" c0

-- Theorems.

/-- Claim C7: every `Status` value survives a JSON encode/decode round trip,
and the encoded form is a single flat object carrying the lowercase tag in
its "status" field alongside the payload fields. -/
theorem status_json_roundtrip (s : Status) :
    Status.fromJson (Status.toJson s) = some s ∧
    jlookup (Status.toJson s) "status" = some (JVal.jstr (Status.tag s)) := by
  cases s <;>
    simp [Status.toJson, Status.fromJson, Status.tag, jlookup, jstrField, jint, jnat]

/-- Claim C2: the sync-pipe parser accepts the two wire shapes and
discriminates by the presence of "message": a line with only "pid" yields
the pid as success, a line with "pid" and "message" yields an error carrying
both fields, and a line with neither shape is a parse error. -/
theorem get_pid_two_shapes (pid : Int) (msg : String) :
    get_pid (some [("pid", JVal.jnum pid)]) = Except.ok pid ∧
    get_pid (some [("pid", JVal.jnum pid), ("message", JVal.jstr msg)]) =
      Except.error ("failed to read container PID from conmon, returned status "
        ++ toString pid ++ ": [" ++ msg ++ "]") ∧
    get_pid (some [("message", JVal.jstr msg)]) =
      Except.error "failed to parse SyncInfo object" := by
  refine ⟨rfl, rfl, rfl⟩

/-- Claim C6: pipe construction marks exactly the parent-retained descriptor
close-on-exec: the reader-inheritable StartPipe has its write end flagged and
its read end clear, and the writer-inheritable SyncPipe has its read end
flagged and its write end clear. -/
theorem pipe_cloexec_sides :
    StartPipe.new.writer_flags &&& FD_CLOEXEC ≠ 0 ∧
    StartPipe.new.child_fd_flags &&& FD_CLOEXEC = 0 ∧
    SyncPipe.new.reader_flags &&& FD_CLOEXEC ≠ 0 ∧
    SyncPipe.new.child_fd_flags &&& FD_CLOEXEC = 0 := by
  decide

/-- Claim C10: the query and toggle operations state, pause and resume never
modify the registry map, whether the lookup hits or misses and whatever the
delegated handle call returns. -/
theorem engine_query_frame (env : Env) (reg : Registry) (name : String) :
    (Engine.state env reg name).1 = reg ∧
    (Engine.pause env reg name).1 = reg ∧
    (Engine.resume env reg name).1 = reg := by
  refine ⟨?_, ?_, ?_⟩ <;> cases hr : reg name <;>
    simp [Engine.state, Engine.pause, Engine.resume, hr]

/-- Claim C9 (amended): a request naming a container absent from the registry
produces an engine error that the rejection handler maps to HTTP 500 with
JSON body code 500 and the engine error message, which for a missing name is
the backquoted text container `name` does not exist. -/
theorem rest_get_absent_container (env : Env) (reg : Registry) (name : String)
    (h : reg name = none) :
    rest_get_container env reg name =
      (500, errorMsgJson 500 ("container `" ++ name ++ "` does not exist")) := by
  simp [rest_get_container, Engine.state, h, handle_rejection, notFoundMsg]

/-- Witness for C9: a GET on the name ghost against an empty registry yields
status 500 and the JSON error body with the backquoted message. -/
theorem rest_get_absent_container_witness :
    rest_get_container env0 emptyReg "ghost" =
      (500, errorMsgJson 500 ("container `" ++ "ghost" ++ "` does not exist")) :=
  rest_get_absent_container env0 emptyReg "ghost" rfl

/-- Counterexample for C9 as stated: the 500 body's message uses backquotes
around the name, not the double quotes the claim gives. -/
theorem rest_get_ghost_message_not_double_quoted :
    rest_get_container env0 emptyReg "ghost" =
      (500, errorMsgJson 500 "container `ghost` does not exist") ∧
    jlookup (rest_get_container env0 emptyReg "ghost").2 "message" ≠
      some (JVal.jstr "container \"ghost\" does not exist") := by
  refine ⟨rfl, ?_⟩
  decide

/-- Claim C1 (amended): when the runtime state command fails, state falls
back to the exit file under the bundle base: if it holds a parseable decimal
exit code the result is the synthesized Stopped state, and if it is absent
the returned error reports the missing exit file (the original runtime error
is discarded, not surfaced). -/
theorem container_state_exit_file_fallback (env : Env) (c : ContainerM) (e : String)
    (hcmd : env.exec [RUNTIME_BIN, "state", c.id] = Except.error e) :
    (∀ contents n, env.fs (c.runtime.exits_dir ++ "/exit") = some contents →
      parseI64 contents = some n →
      (Container.state env c).2 =
        Except.ok (StateM.mk c.id (Status.stopped n) c.runtime.bundle_dir)) ∧
    (env.fs (c.runtime.exits_dir ++ "/exit") = none →
      (Container.state env c).2 = Except.error (exitFileMissingMsg c)) := by
  constructor
  · intro contents n hfs hparse
    simp [Container.state, hcmd, Container.read_state_from_exit_file, hfs, hparse]
  · intro hfs
    simp [Container.state, hcmd, Container.read_state_from_exit_file, hfs]

/-- Witness for C1: with the runtime state command failing and the exit file
holding the text 7, state returns the Stopped state with exit code 7 and the
bundle subdirectory path. -/
theorem container_state_exit_file_fallback_witness :
    (Container.state envExitFile c0).2 =
      Except.ok (StateM.mk "foo" (Status.stopped 7) "/tmp/base/bundle") :=
  (container_state_exit_file_fallback envExitFile c0 "boom" rfl).1 "7" 7 rfl (by decide)

/-- Counterexample for C1 as stated: with the runtime state command failing
with the error boom and no exit file present, the value returned is the
missing-exit-file error, not the original runtime error. -/
theorem container_state_discards_original_error :
    envErrState.exec [RUNTIME_BIN, "state", "foo"] = Except.error "boom" ∧
    (Container.state envErrState c0).2 = Except.error (exitFileMissingMsg c0) ∧
    exitFileMissingMsg c0 ≠ "boom" := by
  refine ⟨rfl, rfl, ?_⟩
  decide

/-- Claim C4: on the empty container spec, Rust splitn yields one empty
segment, so the dead rejection branch is skipped and the copy tool is
invoked with an empty image name instead of the empty-spec error. -/
theorem fetch_empty_spec_not_rejected :
    splitn2 "" = [""] ∧
    OciImage.fetch_from_docker_hub env0 "" =
      ([Eff.spawnCopy [SKOPEO_BIN, "copy", "docker://docker.io/:latest",
        "oci:/tmp/src:latest"]], Except.ok "/tmp/src") := by
  refine ⟨rfl, rfl⟩

/-- Claim C3: create is idempotent. When the name is already registered,
create returns success with no effects and an unchanged registry; and
whenever a create succeeds, a second create of the same name leaves the
registry as it is, performs no effects, and the name has exactly the one
entry. -/
theorem engine_create_idempotent (env : Env) (reg : Registry) (name : String) :
    ((reg name).isSome = true → Engine.create env reg name = (reg, [], Except.ok ())) ∧
    (∀ (r1 : Registry) (t1 : List Eff),
      Engine.create env reg name = (r1, t1, Except.ok ()) →
      Engine.create env r1 name = (r1, [], Except.ok ()) ∧ (r1 name).isSome = true) := by
  constructor
  · intro h
    simp [Engine.create, h]
  · intro r1 t1 h
    by_cases hk : (reg name).isSome = true
    · simp only [Engine.create, hk, if_true, Prod.mk.injEq] at h
      obtain ⟨h1, h2, -⟩ := h
      subst h1
      exact ⟨by simp [Engine.create, hk], hk⟩
    · simp only [Bool.not_eq_true] at hk
      rcases hf : OciImage.fetch_from_docker_hub env name with ⟨ta, ra⟩
      cases ra with
      | error e => simp [Engine.create, hk, hf] at h
      | ok img =>
        rcases hu : OciBundle.unpack_from env img with ⟨tb, rb⟩
        cases rb with
        | error e => simp [Engine.create, hk, hf, hu] at h
        | ok rt =>
          rcases hc : Container.create env name rt with ⟨tc, rc⟩
          cases rc with
          | error e => simp [Engine.create, hk, hf, hu, hc] at h
          | ok c =>
            rcases hs : Container.start env c with ⟨td, rd⟩
            cases rd with
            | error e => simp [Engine.create, hk, hf, hu, hc, hs] at h
            | ok u =>
              cases hal : env.alloc with
              | error e => simp [Engine.create, hk, hf, hu, hc, hs, hal] at h
              | ok u2 =>
                simp only [Engine.create, hk, hf, hu, hc, hs, hal, Bool.false_eq_true,
                  if_false, Prod.mk.injEq] at h
                obtain ⟨h1, -, -⟩ := h
                subst h1
                constructor
                · simp [Engine.create, Registry.insert]
                · simp [Registry.insert]

/-- Witness for C3: with foo already registered, create returns success,
leaves the registry untouched and records no effects. -/
theorem engine_create_idempotent_witness :
    Engine.create env0 reg1 "foo" = (reg1, [], Except.ok ()) :=
  (engine_create_idempotent env0 reg1 "foo").1 rfl

/-- Claim C5: create is atomic on failure. For a name not yet registered, a
failure of fetch, unpack, handle creation or start makes create return that
very error with the registry map unchanged; and in general any erroring
create leaves the registry unchanged. -/
theorem engine_create_atomic (env : Env) (reg : Registry) (name : String)
    (hk : (reg name).isSome = false) :
    (∀ t e, OciImage.fetch_from_docker_hub env name = (t, Except.error e) →
      Engine.create env reg name = (reg, t, Except.error e)) ∧
    (∀ t1 img t2 e, OciImage.fetch_from_docker_hub env name = (t1, Except.ok img) →
      OciBundle.unpack_from env img = (t2, Except.error e) →
      Engine.create env reg name = (reg, t1 ++ t2, Except.error e)) ∧
    (∀ t1 img t2 rt t3 e, OciImage.fetch_from_docker_hub env name = (t1, Except.ok img) →
      OciBundle.unpack_from env img = (t2, Except.ok rt) →
      Container.create env name rt = (t3, Except.error e) →
      Engine.create env reg name = (reg, t1 ++ t2 ++ t3, Except.error e)) ∧
    (∀ t1 img t2 rt t3 c t4 e, OciImage.fetch_from_docker_hub env name = (t1, Except.ok img) →
      OciBundle.unpack_from env img = (t2, Except.ok rt) →
      Container.create env name rt = (t3, Except.ok c) →
      Container.start env c = (t4, Except.error e) →
      Engine.create env reg name = (reg, t1 ++ t2 ++ t3 ++ t4, Except.error e)) ∧
    (∀ e, (Engine.create env reg name).2.2 = Except.error e →
      (Engine.create env reg name).1 = reg) := by
  refine ⟨?_, ?_, ?_, ?_, ?_⟩
  · intro t e hf
    simp [Engine.create, hk, hf]
  · intro t1 img t2 e hf hu
    simp [Engine.create, hk, hf, hu]
  · intro t1 img t2 rt t3 e hf hu hc
    simp [Engine.create, hk, hf, hu, hc]
  · intro t1 img t2 rt t3 c t4 e hf hu hc hs
    simp [Engine.create, hk, hf, hu, hc, hs]
  · intro e he
    rcases hf : OciImage.fetch_from_docker_hub env name with ⟨ta, ra⟩
    cases ra with
    | error e2 => simp [Engine.create, hk, hf]
    | ok img =>
      rcases hu : OciBundle.unpack_from env img with ⟨tb, rb⟩
      cases rb with
      | error e2 => simp [Engine.create, hk, hf, hu]
      | ok rt =>
        rcases hc : Container.create env name rt with ⟨tc, rc⟩
        cases rc with
        | error e2 => simp [Engine.create, hk, hf, hu, hc]
        | ok c =>
          rcases hs : Container.start env c with ⟨td, rd⟩
          cases rd with
          | error e2 => simp [Engine.create, hk, hf, hu, hc, hs]
          | ok u =>
            cases hal : env.alloc with
            | error e2 => simp [Engine.create, hk, hf, hu, hc, hs, hal]
            | ok u2 => simp [Engine.create, hk, hf, hu, hc, hs, hal] at he

/-- Witness for C5: with the copy tool failing, create of the unregistered
name foo returns the fetch error and the registry stays the empty map. -/
theorem engine_create_atomic_witness :
    Engine.create envErrState emptyReg "foo" =
      (emptyReg,
       [Eff.spawnCopy [SKOPEO_BIN, "copy", "docker://docker.io/foo:latest",
         "oci:/tmp/src:latest"]],
       Except.error ("failed to fetch container, "
         ++ "`skopeo copy docker://docker.io/foo:latest oci:/tmp/src:latest`"
         ++ " returned non-zero exit status: [boom]")) :=
  (engine_create_atomic envErrState emptyReg "foo" rfl).1 _ _ rfl

/-- Claim C8: delete removes the entry from the registry (ownership moving
to the caller) before the handle's consuming delete runs, errors with
not-found on an absent name, and after a successful delete every lifecycle
call on that name returns the not-found error. -/
theorem engine_delete_semantics (env : Env) (reg : Registry) (name : String) :
    (∀ c, reg name = some c →
      Engine.delete env reg name =
        (Registry.remove reg name,
         Eff.removeKey name :: (Container.delete env c).1,
         (Container.delete env c).2)) ∧
    (reg name = none →
      Engine.delete env reg name = (reg, [], Except.error (notFoundMsg name))) ∧
    (∀ (r1 : Registry) (t1 : List Eff),
      Engine.delete env reg name = (r1, t1, Except.ok ()) →
      (Engine.state env r1 name).2.2 = Except.error (notFoundMsg name) ∧
      (Engine.pause env r1 name).2.2 = Except.error (notFoundMsg name) ∧
      (Engine.resume env r1 name).2.2 = Except.error (notFoundMsg name) ∧
      (Engine.delete env r1 name).2.2 = Except.error (notFoundMsg name)) := by
  refine ⟨?_, ?_, ?_⟩
  · intro c hc
    simp [Engine.delete, hc]
  · intro hn
    simp [Engine.delete, hn]
  · intro r1 t1 h
    cases hc : reg name with
    | none => simp [Engine.delete, hc] at h
    | some c =>
      simp only [Engine.delete, hc, Prod.mk.injEq] at h
      obtain ⟨h1, -, -⟩ := h
      subst h1
      have hr1 : Registry.remove reg name name = none := by
        simp [Registry.remove]
      exact ⟨by simp [Engine.state, hr1], by simp [Engine.pause, hr1],
        by simp [Engine.resume, hr1], by simp [Engine.delete, hr1]⟩

/-- Witness for C8: after a successful delete of foo, a state query on foo
returns the not-found error. -/
theorem engine_delete_semantics_witness :
    (Engine.state env0 (Registry.remove reg1 "foo") "foo").2.2 =
      Except.error (notFoundMsg "foo") :=
  ((engine_delete_semantics env0 reg1 "foo").2.2 (Registry.remove reg1 "foo")
    (Eff.removeKey "foo" ::
      [Eff.spawnRuntime [RUNTIME_BIN, "delete", "--force", "foo"]]) rfl).1

end Oci
